import Mathlib

/-!
Verification of the credit-decision and EMI-financing engine of the
`ola_backend` repository (Django application).  The Python sources in
`finance/models.py`, `finance/decision_engine.py`, `finance/views.py` and
`finance/signals.py` are shallowly embedded below:

* Python `Decimal` amounts become `ℚ` (Decimal `+`, `-`, `*` are exact; the
  divisions appearing here are only compared or fed into integer rounding,
  so the 28-digit context rounding of `Decimal` division is immaterial).
* Integer scores become `ℤ`; month counts and installment numbers become `ℕ`
  (the model restricts `selected_term` to the choices 4/6/8).
* Calendar dates become `ℤ` day numbers (proleptic Gregorian rata die);
  `timedelta(days=k)` is `+ k` and `relativedelta(months=k)` is `addMonths`.
* Methods that mutate `self` become functions `FinancePlan → FinancePlan`;
  methods that can raise a Python exception (`decimal.DivisionByZero`,
  `decimal.InvalidOperation`) return `Option _`, `none` marking the raise.
* Nullable model fields (`monthly_installment`, `final_score`,
  `score_status`, `paid_date`) become `Option _`.
-/

/-- Risk tiers of `FinancePlan.RISK_TIER_CHOICES`. -/
inductive RiskTier
  | TIER_A
  | TIER_B
  | TIER_C
  | TIER_D
deriving DecidableEq, Repr

/-- Score statuses of `FinancePlan.score_status` choices. -/
inductive ScoreStatus
  | APPROVED
  | CONDITIONAL
  | REJECTED
deriving DecidableEq, Repr

/-- Installment statuses of `EMISchedule.STATUS_CHOICES`. -/
inductive EMIStatus
  | UPCOMING
  | DUE
  | PAID
  | OVERDUE
  | PARTIALLY_PAID
deriving DecidableEq, Repr

/-- Tags abstracting the human-readable messages appended to
`adjustment_notes` by `FinancePlan.validate_conditions` (the interpolated
message text itself carries no further structure). -/
inductive AdjustmentNote
  | downPaymentBelowMinimum
  | termNotAllowed
  | emiExceedsCapacity
  | highEndNeedsHigherDownPayment
deriving DecidableEq, Repr

/-- The rule set returned by `FinancePlan.get_tier_rules` (a Python dict with
four keys). -/
structure TierRules where
  min_down_payment : ℚ
  allowed_terms : List ℕ
  payment_capacity_factor : ℚ
  high_end_extra : ℚ
deriving DecidableEq, Repr

/-- The fields of the Django model `finance.models.FinancePlan` that the
engine's calculation methods read or write.  Field names follow the source;
`installment_to_income_pct` stands for the source column
`installment_to_income_` followed by `ratio` (renamed here only because of a
naming restriction of this development).  Foreign keys, timestamps and the
JSON `allowed_terms` cache are omitted: no embedded method reads them. -/
structure FinancePlan where
  apc_score : ℤ
  risk_tier : RiskTier
  device_price : ℚ
  is_high_end_device : Bool
  minimum_down_payment_percentage : ℚ
  actual_down_payment : ℚ
  down_payment_percentage : ℚ
  amount_to_finance : ℚ
  selected_term : ℕ
  installment_frequency_days : ℕ
  monthly_installment : Option ℚ
  total_amount_payable : ℚ
  customer_monthly_income : ℚ
  payment_capacity_factor : ℚ
  maximum_allowed_installment : ℚ
  installment_to_income_pct : ℚ
  payment_capacity_passed : Bool
  conditions_met : Bool
  requires_adjustment : Bool
  adjustment_notes : List AdjustmentNote
  final_score : Option ℤ
  score_status : Option ScoreStatus
deriving DecidableEq, Repr

/-- The threshold chain of `FinancePlan.determine_risk_tier` (and of the
identical `AutoFinancePlan.determine_risk_tier`): `≥ 600 → TIER_A`,
`≥ 550 → TIER_B`, `≥ 500 → TIER_C`, otherwise `TIER_D`. -/
def riskTierOf (apc_score : ℤ) : RiskTier :=
  if 600 ≤ apc_score then RiskTier.TIER_A
  else if 550 ≤ apc_score then RiskTier.TIER_B
  else if 500 ≤ apc_score then RiskTier.TIER_C
  else RiskTier.TIER_D

namespace FinancePlan

/-- `FinancePlan.determine_risk_tier` (finance/models.py:344-354): sets
`self.risk_tier` from `self.apc_score`.  Note the method signature takes no
threshold parameters. -/
def determine_risk_tier (p : FinancePlan) : FinancePlan :=
  { p with risk_tier := riskTierOf p.apc_score }

/-- `FinancePlan.get_tier_rules` (finance/models.py:356-384): the literal
rule dictionary keyed on `risk_tier` (the `.get` default `TIER_D` is
unreachable since the enum is total). -/
def get_tier_rules (p : FinancePlan) : TierRules :=
  match p.risk_tier with
  | RiskTier.TIER_A =>
      { min_down_payment := 20, allowed_terms := [4, 6, 8],
        payment_capacity_factor := 3/10, high_end_extra := 0 }
  | RiskTier.TIER_B =>
      { min_down_payment := 20, allowed_terms := [6, 8],
        payment_capacity_factor := 2/10, high_end_extra := 5 }
  | RiskTier.TIER_C =>
      { min_down_payment := 25, allowed_terms := [8],
        payment_capacity_factor := 15/100, high_end_extra := 10 }
  | RiskTier.TIER_D =>
      { min_down_payment := 100, allowed_terms := [],
        payment_capacity_factor := 0, high_end_extra := 0 }

/-- Python `Decimal.quantize(Decimal(1), rounding=ROUND_UP)`: round to an
integer away from zero. -/
def decRoundUp (x : ℚ) : ℤ :=
  if 0 ≤ x then ⌈x⌉ else ⌊x⌋

/-- `FinancePlan.calculate_emi` (finance/models.py:399-410).  The guard is
Python truthiness of `selected_term` and `amount_to_finance` (both zero
values are falsy); the quotient is quantized to a whole unit with
`ROUND_UP`. -/
def calculate_emi (p : FinancePlan) : FinancePlan :=
  if p.selected_term ≠ 0 ∧ p.amount_to_finance ≠ 0 then
    { p with
        monthly_installment :=
          some ((decRoundUp (p.amount_to_finance / (p.selected_term : ℚ)) : ℤ) : ℚ) }
  else
    { p with monthly_installment := some 0 }

end FinancePlan

/-- Ordering of tiers by admissibility/risk used to state monotonicity:
`TIER_D` (hard reject) lowest, `TIER_A` (low risk) highest. -/
def riskRank : RiskTier → ℕ
  | RiskTier.TIER_D => 0
  | RiskTier.TIER_C => 1
  | RiskTier.TIER_B => 2
  | RiskTier.TIER_A => 3

/-- A sample plan record; concrete claims below instantiate universally
quantified theorems on updates of this record. -/
def samplePlan : FinancePlan :=
  { apc_score := 620
    risk_tier := RiskTier.TIER_A
    device_price := 300
    is_high_end_device := false
    minimum_down_payment_percentage := 20
    actual_down_payment := 60
    down_payment_percentage := 20
    amount_to_finance := 240
    selected_term := 8
    installment_frequency_days := 15
    monthly_installment := some 30
    total_amount_payable := 300
    customer_monthly_income := 1000
    payment_capacity_factor := 3/10
    maximum_allowed_installment := 300
    installment_to_income_pct := 3
    payment_capacity_passed := true
    conditions_met := true
    requires_adjustment := false
    adjustment_notes := []
    final_score := none
    score_status := none }

/-- C2: `determine_risk_tier` maps `≥ 600` to `TIER_A`, `550–599` to
`TIER_B`, `500–549` to `TIER_C`, `< 500` to `TIER_D` (whose rule set has an
empty `allowed_terms` list); the map is monotone in risk rank, and the
boundary scores 499/500/549/550/599/600 land exactly as specified. -/
theorem determine_risk_tier_boundaries_and_monotone :
    (∀ s1 s2 : ℤ, s1 < s2 → riskRank (riskTierOf s1) ≤ riskRank (riskTierOf s2)) ∧
    (∀ p : FinancePlan, (p.determine_risk_tier).risk_tier = riskTierOf p.apc_score) ∧
    riskTierOf 499 = RiskTier.TIER_D ∧
    riskTierOf 500 = RiskTier.TIER_C ∧
    riskTierOf 549 = RiskTier.TIER_C ∧
    riskTierOf 550 = RiskTier.TIER_B ∧
    riskTierOf 599 = RiskTier.TIER_B ∧
    riskTierOf 600 = RiskTier.TIER_A ∧
    (∀ s : ℤ, s < 500 → riskTierOf s = RiskTier.TIER_D) ∧
    (∀ s : ℤ, 500 ≤ s → s ≤ 549 → riskTierOf s = RiskTier.TIER_C) ∧
    (∀ s : ℤ, 550 ≤ s → s ≤ 599 → riskTierOf s = RiskTier.TIER_B) ∧
    (∀ s : ℤ, 600 ≤ s → riskTierOf s = RiskTier.TIER_A) ∧
    (∀ p : FinancePlan, p.risk_tier = RiskTier.TIER_D →
      (p.get_tier_rules).allowed_terms = []) := by
  refine ⟨?_, ?_, by decide, by decide, by decide, by decide, by decide, by decide,
    ?_, ?_, ?_, ?_, ?_⟩
  · intro s1 s2 h
    unfold riskTierOf
    split_ifs <;> simp [riskRank] <;> omega
  · intro p; rfl
  · intro s h; unfold riskTierOf; split_ifs <;> first | rfl | omega
  · intro s h1 h2; unfold riskTierOf; split_ifs <;> first | rfl | omega
  · intro s h1 h2; unfold riskTierOf; split_ifs <;> first | rfl | omega
  · intro s h; unfold riskTierOf; split_ifs <;> first | rfl | omega
  · intro p hp; simp [FinancePlan.get_tier_rules, hp]

/-- C2 witness: the monotonicity part applied at the concrete pair
450 < 700, and the boundary at 499. -/
theorem determine_risk_tier_boundaries_and_monotone_witness :
    riskRank (riskTierOf 450) ≤ riskRank (riskTierOf 700) ∧
    riskTierOf 450 = RiskTier.TIER_D ∧
    ({ samplePlan with risk_tier := RiskTier.TIER_D } : FinancePlan).get_tier_rules.allowed_terms = [] := by
  refine ⟨determine_risk_tier_boundaries_and_monotone.1 450 700 (by decide), by decide, ?_⟩
  exact determine_risk_tier_boundaries_and_monotone.2.2.2.2.2.2.2.2.2.2.2.2
    { samplePlan with risk_tier := RiskTier.TIER_D } rfl

/-- C1: for positive financed amount and positive term, `calculate_emi`
stores the ceiling of `amount_to_finance / selected_term`, so the EMI
over-collects by less than one installment-count unit
(`emi × term ≥ amount` and `emi × term − amount < term`); with a zero term
or a zero amount it stores `0` and does not raise. -/
theorem calculate_emi_ceiling (p : FinancePlan)
    (hA : 0 < p.amount_to_finance) (hT : 0 < p.selected_term) :
    (p.calculate_emi).monthly_installment =
      some ((⌈p.amount_to_finance / (p.selected_term : ℚ)⌉ : ℤ) : ℚ) ∧
    (∀ e : ℚ, (p.calculate_emi).monthly_installment = some e →
      p.amount_to_finance ≤ e * (p.selected_term : ℚ) ∧
      e * (p.selected_term : ℚ) - p.amount_to_finance < (p.selected_term : ℚ)) ∧
    (∀ q : FinancePlan, q.selected_term = 0 ∨ q.amount_to_finance = 0 →
      (q.calculate_emi).monthly_installment = some 0) := by
  have htQ : (0 : ℚ) < (p.selected_term : ℚ) := by exact_mod_cast hT
  have hx : (0 : ℚ) ≤ p.amount_to_finance / (p.selected_term : ℚ) :=
    le_of_lt (div_pos hA htQ)
  have hguard : p.selected_term ≠ 0 ∧ p.amount_to_finance ≠ 0 :=
    ⟨by omega, ne_of_gt hA⟩
  have hemi : (p.calculate_emi).monthly_installment =
      some ((⌈p.amount_to_finance / (p.selected_term : ℚ)⌉ : ℤ) : ℚ) := by
    unfold FinancePlan.calculate_emi FinancePlan.decRoundUp
    rw [if_pos hguard, if_pos hx]
  refine ⟨hemi, ?_, ?_⟩
  · intro e he
    rw [hemi] at he
    have he' : e = ((⌈p.amount_to_finance / (p.selected_term : ℚ)⌉ : ℤ) : ℚ) :=
      (Option.some_inj.mp he).symm
    subst he'
    constructor
    · have h1 : p.amount_to_finance / (p.selected_term : ℚ) ≤
          ((⌈p.amount_to_finance / (p.selected_term : ℚ)⌉ : ℤ) : ℚ) := Int.le_ceil _
      calc p.amount_to_finance
          = p.amount_to_finance / (p.selected_term : ℚ) * (p.selected_term : ℚ) := by
            field_simp
        _ ≤ ((⌈p.amount_to_finance / (p.selected_term : ℚ)⌉ : ℤ) : ℚ) * (p.selected_term : ℚ) :=
            mul_le_mul_of_nonneg_right h1 (le_of_lt htQ)
    · have h2 : ((⌈p.amount_to_finance / (p.selected_term : ℚ)⌉ : ℤ) : ℚ) <
          p.amount_to_finance / (p.selected_term : ℚ) + 1 := Int.ceil_lt_add_one _
      have h3 : ((⌈p.amount_to_finance / (p.selected_term : ℚ)⌉ : ℤ) : ℚ) * (p.selected_term : ℚ) <
          (p.amount_to_finance / (p.selected_term : ℚ) + 1) * (p.selected_term : ℚ) :=
        mul_lt_mul_of_pos_right h2 htQ
      have h4 : (p.amount_to_finance / (p.selected_term : ℚ) + 1) * (p.selected_term : ℚ) =
          p.amount_to_finance + (p.selected_term : ℚ) := by
        field_simp
      linarith [h3, h4.symm ▸ h3]
  · intro q hq
    unfold FinancePlan.calculate_emi
    rw [if_neg]
    rintro ⟨h1, h2⟩
    rcases hq with h | h
    · exact h1 h
    · exact h2 h

/-- C1 witness: the theorem applied at the §8 scenario
(`amount_to_finance = 240`, `term = 8`), giving EMI `30`, and at a plan
with term `0`, giving EMI `0`. -/
theorem calculate_emi_ceiling_witness :
    (samplePlan.calculate_emi).monthly_installment = some ((⌈(240 : ℚ) / (8 : ℚ)⌉ : ℤ) : ℚ) ∧
    ({ samplePlan with selected_term := 0 } : FinancePlan).calculate_emi.monthly_installment =
      some 0 := by
  have h := calculate_emi_ceiling samplePlan (by norm_num [samplePlan]) (by norm_num [samplePlan])
  exact ⟨h.1, h.2.2 { samplePlan with selected_term := 0 } (Or.inl rfl)⟩

namespace FinancePlan

/-- `FinancePlan.check_payment_capacity` (finance/models.py:413-441).
`none` models the `decimal.DivisionByZero` exception raised by
`monthly_installment / customer_monthly_income` when the income is zero and
the installment is positive (the source has no zero-income guard). -/
def check_payment_capacity (p : FinancePlan) : Option FinancePlan :=
  let p1 : FinancePlan :=
    { p with payment_capacity_factor := p.get_tier_rules.payment_capacity_factor }
  if p1.risk_tier = RiskTier.TIER_D then
    some { p1 with payment_capacity_passed := false }
  else
    let p2 : FinancePlan :=
      { p1 with
          maximum_allowed_installment :=
            p1.customer_monthly_income * p1.payment_capacity_factor }
    match p2.monthly_installment with
    | some emi =>
        if 0 < emi then
          if p2.customer_monthly_income = 0 then
            none
          else
            let p3 : FinancePlan :=
              { p2 with
                  installment_to_income_pct :=
                    emi / p2.customer_monthly_income * 100 }
            some { p3 with
                     payment_capacity_passed :=
                       decide (emi ≤ p3.maximum_allowed_installment) }
        else
          some { p2 with
                   payment_capacity_passed :=
                     decide (emi ≤ p2.maximum_allowed_installment) }
    | none => some { p2 with payment_capacity_passed := false }

end FinancePlan

/-- C5 counterexample: with `customer_monthly_income = 0` the capacity
check does not "complete without raising": for a positive installment the
source divides by the zero income and raises (`none` here); and for a zero
installment the check in fact passes (`0 ≤ 0 × k`), so it is not "treated
as failing" either. -/
theorem check_payment_capacity_zero_income_counterexample :
    ({ samplePlan with
         customer_monthly_income := 0
         monthly_installment := some 10 } : FinancePlan).check_payment_capacity = none ∧
    (({ samplePlan with
          customer_monthly_income := 0
          monthly_installment := some 0 } : FinancePlan).check_payment_capacity).map
        (fun q => q.payment_capacity_passed) = some true := by
  constructor
  · norm_num [FinancePlan.check_payment_capacity, samplePlan, FinancePlan.get_tier_rules]
    exact fun h => absurd h (by decide)
  · norm_num [FinancePlan.check_payment_capacity, samplePlan, FinancePlan.get_tier_rules]
    exact ⟨_, by rw [if_neg (by decide)], rfl⟩

/-- C5 amended: `check_payment_capacity` never divides for tier-D plans and
always fails them (`payment_capacity_factor = 0`); for any other tier with
`customer_monthly_income = 0` it raises `DivisionByZero` when the stored
installment is positive, and completes with a passing check when the
stored installment is zero (`0 ≤ 0`). -/
theorem check_payment_capacity_zero_income_amended (p : FinancePlan) :
    (p.risk_tier = RiskTier.TIER_D →
      p.check_payment_capacity =
        some { p with payment_capacity_factor := 0, payment_capacity_passed := false }) ∧
    (p.customer_monthly_income = 0 → p.risk_tier ≠ RiskTier.TIER_D →
      (∀ emi : ℚ, p.monthly_installment = some emi → 0 < emi →
        p.check_payment_capacity = none) ∧
      (p.monthly_installment = some 0 →
        (p.check_payment_capacity).map (fun q => q.payment_capacity_passed) = some true)) := by
  constructor
  · intro hD
    unfold FinancePlan.check_payment_capacity
    simp only [FinancePlan.get_tier_rules, hD, if_pos]
  · intro hInc hD
    constructor
    · intro emi hemi hpos
      unfold FinancePlan.check_payment_capacity
      simp only [hemi, hInc]
      rw [if_neg (by simpa using hD)]
      simp [hpos]
    · intro hemi
      unfold FinancePlan.check_payment_capacity
      simp only [hemi, hInc]
      rw [if_neg (by simpa using hD)]
      simp

/-- C5 witness: the amended theorem applied at a tier-D plan and at two
concrete zero-income plans. -/
theorem check_payment_capacity_zero_income_amended_witness :
    ({ samplePlan with risk_tier := RiskTier.TIER_D } : FinancePlan).check_payment_capacity =
      some { { samplePlan with risk_tier := RiskTier.TIER_D } with
               payment_capacity_factor := 0, payment_capacity_passed := false } ∧
    ({ samplePlan with
         customer_monthly_income := 0
         monthly_installment := some 10 } : FinancePlan).check_payment_capacity = none ∧
    (({ samplePlan with
          customer_monthly_income := 0
          monthly_installment := some 0 } : FinancePlan).check_payment_capacity).map
        (fun q => q.payment_capacity_passed) = some true := by
  refine ⟨(check_payment_capacity_zero_income_amended _).1 rfl, ?_, ?_⟩
  · exact ((check_payment_capacity_zero_income_amended _).2 rfl (by decide)).1 10 rfl (by norm_num)
  · exact ((check_payment_capacity_zero_income_amended _).2 rfl (by decide)).2 rfl

/-- Python `int(Decimal)` conversion: truncation toward zero (agrees with
the floor exactly on nonnegative values). -/
def truncToZero (x : ℚ) : ℤ :=
  if 0 ≤ x then ⌊x⌋ else ⌈x⌉

/-- The APC normalisation of `calculate_final_score`
(finance/models.py:490): `min(100, max(0, (apc − 500) / 300 × 100))` — a
two-sided clamp. -/
def apcNorm (apc : ℤ) : ℚ :=
  min 100 (max 0 (((apc : ℚ) - 500) / 300 * 100))

/-- The capacity normalisation of `calculate_final_score`
(finance/models.py:493-501): guarded by
`maximum_allowed_installment > 0 and monthly_installment is not None`, it
is `min(100, (max − emi) / max × 100)` — capped above at 100 but NOT
clamped below at 0. -/
def capacityNormCode (maxInst : ℚ) (emi? : Option ℚ) : ℚ :=
  match emi? with
  | some emi => if 0 < maxInst then min 100 ((maxInst - emi) / maxInst * 100) else 0
  | none => 0

/-- The status thresholds of `calculate_final_score`
(finance/models.py:519-524). -/
def scoreStatusOf (s : ℤ) : ScoreStatus :=
  if 80 ≤ s then ScoreStatus.APPROVED
  else if 60 ≤ s then ScoreStatus.CONDITIONAL
  else ScoreStatus.REJECTED

namespace FinancePlan

/-- `FinancePlan.calculate_final_score` (finance/models.py:482-526), with
the source's Python default arguments `biometric_confidence=0`,
`references_score=0`, `geo_behavior=0` passed explicitly by callers below.
`int(...)` truncates the weighted `Decimal` sum toward zero. -/
def calculate_final_score (p : FinancePlan)
    (biometric_confidence references_score geo_behavior : ℚ) : FinancePlan :=
  let score : ℤ := truncToZero
    (3/10 * apcNorm p.apc_score +
     3/10 * capacityNormCode p.maximum_allowed_installment p.monthly_installment +
     2/10 * biometric_confidence +
     1/10 * references_score +
     1/10 * geo_behavior)
  { p with final_score := some score, score_status := some (scoreStatusOf score) }

end FinancePlan

/-- The capacity normalisation as the SPEC claims it (C3):
`clamp((max − emi) / max × 100, 0, 100)`, and `0` whenever `max ≤ 0` — a
two-sided clamp, unlike the code. -/
def claimCapacityNorm (maxInst emi : ℚ) : ℚ :=
  if maxInst ≤ 0 then 0
  else min 100 (max 0 ((maxInst - emi) / maxInst * 100))

/-- The final score as the SPEC claims it (C3):
`floor(0.30×apc_norm + 0.30×capacity_norm + 0.20×b + 0.10×r + 0.10×g)`
with the claimed two-sided capacity clamp. -/
def claimFinalScore (apc : ℤ) (maxInst emi : ℚ) (b r g : ℚ) : ℤ :=
  ⌊3/10 * apcNorm apc + 3/10 * claimCapacityNorm maxInst emi +
    2/10 * b + 1/10 * r + 1/10 * g⌋

lemma scoreStatusOf_iff (s : ℤ) :
    (scoreStatusOf s = ScoreStatus.APPROVED ↔ 80 ≤ s) ∧
    (scoreStatusOf s = ScoreStatus.CONDITIONAL ↔ 60 ≤ s ∧ s < 80) ∧
    (scoreStatusOf s = ScoreStatus.REJECTED ↔ s < 60) := by
  unfold scoreStatusOf
  refine ⟨?_, ?_, ?_⟩ <;> split_ifs with h1 h2 <;> simp_all <;> omega

/-- C3 counterexample: for a plan with `apc_score = 500`,
`maximum_allowed_installment = 100` and `monthly_installment = 200`, the
code stores `final_score = −30` (the unclamped capacity term is `−100`),
while the claimed formula — with `capacity_norm` clamped at 0 — gives 0. -/
theorem calculate_final_score_clamp_counterexample :
    (({ samplePlan with
          apc_score := 500
          maximum_allowed_installment := 100
          monthly_installment := some 200 } : FinancePlan).calculate_final_score 0 0 0).final_score
      = some (-30) ∧
    claimFinalScore 500 100 200 0 0 0 = 0 ∧ (-30 : ℤ) ≠ 0 := by
  refine ⟨?_, ?_, by decide⟩
  · norm_num [FinancePlan.calculate_final_score, samplePlan, apcNorm,
      capacityNormCode, truncToZero]
    rw [show ((-30 : ℚ)) = ((-30 : ℤ) : ℚ) by norm_num, Int.ceil_intCast]
  · norm_num [claimFinalScore, claimCapacityNorm, apcNorm]

namespace FinancePlan

/-- `FinancePlan.calculate_minimum_down_payment` (finance/models.py:386-396):
sets `minimum_down_payment_percentage` (tier minimum, plus the high-end
extra for tiers B/C) and returns the minimum down-payment amount. -/
def calculate_minimum_down_payment (p : FinancePlan) : FinancePlan × ℚ :=
  let rules := p.get_tier_rules
  let min_percentage : ℚ :=
    if p.is_high_end_device = true ∧
        (p.risk_tier = RiskTier.TIER_B ∨ p.risk_tier = RiskTier.TIER_C) then
      rules.min_down_payment + rules.high_end_extra
    else rules.min_down_payment
  ({ p with minimum_down_payment_percentage := min_percentage },
   p.device_price * min_percentage / 100)

/-- `FinancePlan.validate_conditions` (finance/models.py:443-478): the four
checks, `conditions_met`, and on failure `requires_adjustment` plus one
note per failed check.  `none` propagates the exception that
`check_payment_capacity` can raise. -/
def validate_conditions (p : FinancePlan) : Option FinancePlan :=
  let rules := p.get_tier_rules
  let pm := p.calculate_minimum_down_payment
  let down_payment_ok : Bool := decide (pm.2 ≤ pm.1.actual_down_payment)
  let term_ok : Bool := decide (pm.1.selected_term ∈ rules.allowed_terms)
  match pm.1.check_payment_capacity with
  | none => none
  | some p2 =>
      let capacity_ok := p2.payment_capacity_passed
      let high_end_ok : Bool :=
        if p2.is_high_end_device = true ∧
            (p2.risk_tier = RiskTier.TIER_B ∨ p2.risk_tier = RiskTier.TIER_C) then
          down_payment_ok
        else true
      let met := down_payment_ok && term_ok && capacity_ok && high_end_ok
      if met then some { p2 with conditions_met := met }
      else
        some { p2 with
                 conditions_met := met
                 requires_adjustment := true
                 adjustment_notes :=
                   (if down_payment_ok then [] else [AdjustmentNote.downPaymentBelowMinimum]) ++
                   (if term_ok then [] else [AdjustmentNote.termNotAllowed]) ++
                   (if capacity_ok then [] else [AdjustmentNote.emiExceedsCapacity]) ++
                   (if high_end_ok then [] else [AdjustmentNote.highEndNeedsHigherDownPayment]) }

end FinancePlan

/-- The rows of the `CreditConfig` store consulted by the decision engine
(`CreditConfig.objects.last()`), carrying the custom tier thresholds
exposed by `CreditConfigSerializer` (customer/serializers.py:106-116). -/
structure CreditConfig where
  tier_a_min_score : ℤ
  tier_b_min_score : ℤ
  tier_c_min_score : ℤ
deriving DecidableEq, Repr

/-- Modelled from the spec (C7): "if an external configuration store
supplies custom thresholds (tier A/B/C minimum scores), the classifier
must accept them as optional override parameters, falling back to the
fixed defaults when absent" (spec §4.1).  This is what the claim says the
classifier does — compared below with what the code does. -/
def riskTierWithOverrides (cfg : Option CreditConfig) (apc : ℤ) : RiskTier :=
  match cfg with
  | none => riskTierOf apc
  | some c =>
      if c.tier_a_min_score ≤ apc then RiskTier.TIER_A
      else if c.tier_b_min_score ≤ apc then RiskTier.TIER_B
      else if c.tier_c_min_score ≤ apc then RiskTier.TIER_C
      else RiskTier.TIER_D

namespace DecisionEngine

/-- `DecisionEngine.dynamic_adjustment` (finance/decision_engine.py:145-179),
returning the plan together with the source's local `adjusted` flag.
`none` models a raised exception: dividing by a zero `device_price` when
recomputing `down_payment_percentage`, a `None` installment reaching the
`total_amount_payable` product, or the zero-income division inside
`check_payment_capacity`.  When `adjusted` is set, the re-scoring call is
`calculate_final_score()` with its Python defaults `0, 0, 0`.
`adjusted_recalculate` is the recomputation block of lines 170-179. -/
def adjusted_recalculate (p2 : FinancePlan) : Option FinancePlan :=
  let p3 := ({ p2 with
                 amount_to_finance :=
                   p2.device_price - p2.actual_down_payment } : FinancePlan).calculate_emi
  match p3.monthly_installment with
  | none => none
  | some emi =>
      let p4 := { p3 with
                    total_amount_payable :=
                      p3.actual_down_payment + emi * (p3.selected_term : ℚ) }
      match p4.check_payment_capacity with
      | none => none
      | some p5 =>
          match p5.validate_conditions with
          | none => none
          | some p6 => some (p6.calculate_final_score 0 0 0)

/-- The down-payment bump and term-reduction decisions of
`dynamic_adjustment`, followed — exactly when the `adjusted` flag got
set — by `adjusted_recalculate`. -/
def dynamic_adjustment (p : FinancePlan) : Option (FinancePlan × Bool) :=
  let rules := p.get_tier_rules
  let step1 : Option (FinancePlan × Bool) :=
    if p.down_payment_percentage + 5 ≤ 100 then
      if p.device_price = 0 then none
      else
        let newDown := p.actual_down_payment + p.device_price * 5 / 100
        some ({ p with
                  actual_down_payment := newDown
                  down_payment_percentage := newDown / p.device_price * 100 }, true)
    else some (p, false)
  match step1 with
  | none => none
  | some (p1, adjusted1) =>
      let step2 : FinancePlan × Bool :=
        match rules.allowed_terms.min? with
        | some min_term =>
            if min_term < p1.selected_term then
              ({ p1 with selected_term := min_term }, true)
            else (p1, adjusted1)
        | none => (p1, adjusted1)
      if step2.2 = true then
        (adjusted_recalculate step2.1).map (fun q => (q, true))
      else some step2

/-- Steps 1-6 of `DecisionEngine.run` (finance/decision_engine.py:83-121):
risk tier, high-end flag, minimum down payment, EMI, payment capacity,
condition validation.  The tier step ignores any `CreditConfig` row: the
source calls `determine_risk_tier(tier_a_min_score, tier_b_min_score,
tier_c_min_score)` inside `try:`, but `FinancePlan.determine_risk_tier`
takes no parameters, so the call raises `TypeError` (and when no config
row exists, reading `.tier_a_min_score` off `None` raises
`AttributeError`); the bare `except:` swallows either and re-runs
`determine_risk_tier()` with the fixed 600/550/500 thresholds. -/
def runPrefix (p : FinancePlan) : Option FinancePlan :=
  let p1 := p.determine_risk_tier
  let p2 := { p1 with is_high_end_device := decide ((300 : ℚ) < p1.device_price) }
  let p3 := (p2.calculate_minimum_down_payment).1
  let p4 := p3.calculate_emi
  match p4.check_payment_capacity with
  | none => none
  | some p5 => p5.validate_conditions

/-- The tail of `DecisionEngine.run`, parametrised by the three signal
values fed to `calculate_final_score` so that the source's hard-coded
values and the claim's documented defaults can be compared.  The `cfg`
argument is the `CreditConfig.objects.last()` row; per `runPrefix` it
never influences the outcome. -/
def runWithSignals (biometric_conf reference_score geo_behavior : ℚ)
    (cfg : Option CreditConfig) (dynamic_adjustment_enabled : Bool)
    (p : FinancePlan) : Option FinancePlan :=
  let _ := cfg
  match runPrefix p with
  | none => none
  | some p6 =>
      let p7 := p6.calculate_final_score biometric_conf reference_score geo_behavior
      if dynamic_adjustment_enabled = true ∧ p7.score_status = some ScoreStatus.CONDITIONAL then
        (dynamic_adjustment p7).map (fun x => x.1)
      else some p7

/-- `DecisionEngine.run` (finance/decision_engine.py:83-141): the signal
inputs to the final score are the source's hard-coded locals
`biometric_conf = 100`, `reference_score = 100`, `geo_behavior = 100`
(decision_engine.py:110-112; the `getattr` wiring that would default them
to 0 is commented out in the source). -/
def run (cfg : Option CreditConfig) (dynamic_adjustment_enabled : Bool)
    (p : FinancePlan) : Option FinancePlan :=
  runWithSignals 100 100 100 cfg dynamic_adjustment_enabled p

/-- Modelled from the spec for comparison (C6): the claim's reading of
`DecisionEngine.run`, identical to the code except that the absent
identity/reference/geo signals enter the final score as the documented
defaults `0, 0, 0`. -/
def run_claim_zero_signals (cfg : Option CreditConfig)
    (dynamic_adjustment_enabled : Bool) (p : FinancePlan) : Option FinancePlan :=
  runWithSignals 0 0 0 cfg dynamic_adjustment_enabled p

end DecisionEngine

lemma calculate_final_score_fields (p : FinancePlan) (b r g : ℚ) :
    ∃ s : ℤ, (p.calculate_final_score b r g).final_score = some s ∧
      (p.calculate_final_score b r g).score_status = some (scoreStatusOf s) :=
  ⟨_, rfl, rfl⟩

/-- C3 amended: `calculate_final_score` stores the weighted sum truncated
toward zero (Python `int`), with the code's capacity normalisation capped
above at 100 but NOT clamped below at 0 (it can go negative when the EMI
exceeds the allowed maximum); the status thresholds are exactly as
claimed; and the claimed two-sided clamp (and the floor) agree with the
code whenever the affordability headroom is nonnegative (`emi ≤ max`). -/
theorem calculate_final_score_amended (p : FinancePlan) (b r g : ℚ) :
    (p.calculate_final_score b r g).final_score =
      some (truncToZero
        (3/10 * apcNorm p.apc_score +
         3/10 * capacityNormCode p.maximum_allowed_installment p.monthly_installment +
         2/10 * b + 1/10 * r + 1/10 * g)) ∧
    (∀ s : ℤ, (p.calculate_final_score b r g).final_score = some s →
      (((p.calculate_final_score b r g).score_status = some ScoreStatus.APPROVED) ↔ 80 ≤ s) ∧
      (((p.calculate_final_score b r g).score_status = some ScoreStatus.CONDITIONAL) ↔
        60 ≤ s ∧ s < 80) ∧
      (((p.calculate_final_score b r g).score_status = some ScoreStatus.REJECTED) ↔ s < 60)) ∧
    (∀ emi : ℚ, p.monthly_installment = some emi → emi ≤ p.maximum_allowed_installment →
      capacityNormCode p.maximum_allowed_installment p.monthly_installment =
        claimCapacityNorm p.maximum_allowed_installment emi) ∧
    (∀ x : ℚ, 0 ≤ x → truncToZero x = ⌊x⌋) := by
  refine ⟨rfl, ?_, ?_, ?_⟩
  · intro s hs
    obtain ⟨s0, h1, h2⟩ := calculate_final_score_fields p b r g
    rw [h1] at hs
    have hss : s0 = s := Option.some_inj.mp hs
    subst hss
    rw [h2]
    constructor
    · rw [Option.some_inj]; exact (scoreStatusOf_iff s0).1
    constructor
    · rw [Option.some_inj]; exact (scoreStatusOf_iff s0).2.1
    · rw [Option.some_inj]; exact (scoreStatusOf_iff s0).2.2
  · intro emi hemi hle
    unfold capacityNormCode claimCapacityNorm
    rw [hemi]
    dsimp only
    by_cases hmax : 0 < p.maximum_allowed_installment
    · rw [if_pos hmax, if_neg (not_le.mpr hmax)]
      have hx : 0 ≤ (p.maximum_allowed_installment - emi) / p.maximum_allowed_installment * 100 := by
        apply mul_nonneg _ (by norm_num)
        exact div_nonneg (by linarith) (le_of_lt hmax)
      rw [max_eq_right hx]
    · rw [if_neg hmax, if_pos (not_lt.mp hmax)]
  · intro x hx
    unfold truncToZero
    rw [if_pos hx]

/-- C3 witness: the amended theorem applied at a concrete plan
(`apc = 800`, `max = 300`, `emi = 30`, all signals 100): score 97,
APPROVED; the clamp agreement at `emi = 30 ≤ 300`; the floor agreement at
the nonnegative sum 97. -/
theorem calculate_final_score_amended_witness :
    (({ samplePlan with apc_score := 800 } : FinancePlan).calculate_final_score 100 100 100).final_score
      = some 97 ∧
    (({ samplePlan with apc_score := 800 } : FinancePlan).calculate_final_score 100 100 100).score_status
      = some ScoreStatus.APPROVED ∧
    capacityNormCode 300 (some 30) = claimCapacityNorm 300 30 ∧
    truncToZero 97 = ⌊(97 : ℚ)⌋ := by
  have h := calculate_final_score_amended { samplePlan with apc_score := 800 } 100 100 100
  have hfs : (({ samplePlan with apc_score := 800 } : FinancePlan).calculate_final_score
      100 100 100).final_score = some 97 := by
    rw [h.1]
    norm_num [samplePlan, apcNorm, capacityNormCode, truncToZero]
  refine ⟨hfs, ((h.2.1 97 hfs).1).mpr (by norm_num), ?_, h.2.2.2 97 (by norm_num)⟩
  exact h.2.2.1 30 rfl (by norm_num [samplePlan])

lemma runPrefix_sample650 :
    DecisionEngine.runPrefix { samplePlan with apc_score := 650 } =
      some { samplePlan with apc_score := 650 } := by
  norm_num +decide [DecisionEngine.runPrefix, FinancePlan.determine_risk_tier, riskTierOf,
    FinancePlan.calculate_minimum_down_payment, FinancePlan.get_tier_rules,
    FinancePlan.calculate_emi, FinancePlan.decRoundUp,
    FinancePlan.check_payment_capacity, FinancePlan.validate_conditions, samplePlan]

lemma score_sample650_signals100 :
    (({ samplePlan with apc_score := 650 } : FinancePlan).calculate_final_score 100 100 100).final_score
        = some 82 ∧
    (({ samplePlan with apc_score := 650 } : FinancePlan).calculate_final_score 100 100 100).score_status
        = some ScoreStatus.APPROVED := by
  constructor <;>
    norm_num +decide [FinancePlan.calculate_final_score, samplePlan, apcNorm, capacityNormCode,
      truncToZero, scoreStatusOf]
lemma score_sample650_signals0 :
    (({ samplePlan with apc_score := 650 } : FinancePlan).calculate_final_score 0 0 0).final_score
        = some 42 ∧
    (({ samplePlan with apc_score := 650 } : FinancePlan).calculate_final_score 0 0 0).score_status
        = some ScoreStatus.REJECTED := by
  constructor <;>
    norm_num +decide [FinancePlan.calculate_final_score, samplePlan, apcNorm, capacityNormCode,
      truncToZero, scoreStatusOf]

lemma runWithSignals_eval (b r g : ℚ) (cfg : Option CreditConfig) (dyn : Bool)
    (p p6 : FinancePlan) (h : DecisionEngine.runPrefix p = some p6)
    (hnc : ¬(dyn = true ∧ (p6.calculate_final_score b r g).score_status =
        some ScoreStatus.CONDITIONAL)) :
    DecisionEngine.runWithSignals b r g cfg dyn p = some (p6.calculate_final_score b r g) := by
  unfold DecisionEngine.runWithSignals
  rw [h]
  exact if_neg hnc

lemma runWithSignals_eval_cond (b r g : ℚ) (cfg : Option CreditConfig) (dyn : Bool)
    (p p6 : FinancePlan) (h : DecisionEngine.runPrefix p = some p6)
    (hc : dyn = true ∧ (p6.calculate_final_score b r g).score_status =
        some ScoreStatus.CONDITIONAL) :
    DecisionEngine.runWithSignals b r g cfg dyn p =
      (DecisionEngine.dynamic_adjustment (p6.calculate_final_score b r g)).map
        (fun x => x.1) := by
  unfold DecisionEngine.runWithSignals
  rw [h]
  exact if_pos hc

/-- C6 counterexample: on a plan where the pipeline succeeds without
adjustment, `DecisionEngine.run` scores 82 because the biometric,
reference and geo inputs are the hard-coded constant 100 each
(decision_engine.py:110-112); had the documented defaults 0 been passed —
as the claim states — the very same plan would score 42. -/
theorem run_zero_signals_counterexample :
    (DecisionEngine.run none true { samplePlan with apc_score := 650 }).map
        (fun q => q.final_score) = some (some 82) ∧
    (DecisionEngine.run_claim_zero_signals none true { samplePlan with apc_score := 650 }).map
        (fun q => q.final_score) = some (some 42) ∧
    (82 : ℤ) ≠ 42 := by
  refine ⟨?_, ?_, by decide⟩
  · unfold DecisionEngine.run
    rw [runWithSignals_eval 100 100 100 none true _ _ runPrefix_sample650
      (by rw [score_sample650_signals100.2]; simp +decide)]
    simp [score_sample650_signals100.1]
  · unfold DecisionEngine.run_claim_zero_signals
    rw [runWithSignals_eval 0 0 0 none true _ _ runPrefix_sample650
      (by rw [score_sample650_signals0.2]; simp +decide)]
    simp [score_sample650_signals0.1]

/-- C6 amended: in every `DecisionEngine.run` invocation the signal inputs
fed to the final-score calculation are the source's hard-coded constants
100, 100, 100 — not the documented defaults 0: whenever the pipeline
prefix succeeds with state `p6`, the run returns
`p6.calculate_final_score 100 100 100` (followed by the single dynamic
adjustment exactly when that score's status is CONDITIONAL and adjustment
is enabled). -/
theorem run_signals_hardcoded_100 (cfg : Option CreditConfig) (dyn : Bool)
    (p p6 : FinancePlan) (h : DecisionEngine.runPrefix p = some p6) :
    (¬(dyn = true ∧ (p6.calculate_final_score 100 100 100).score_status =
        some ScoreStatus.CONDITIONAL) →
      DecisionEngine.run cfg dyn p = some (p6.calculate_final_score 100 100 100)) ∧
    ((dyn = true ∧ (p6.calculate_final_score 100 100 100).score_status =
        some ScoreStatus.CONDITIONAL) →
      DecisionEngine.run cfg dyn p =
        (DecisionEngine.dynamic_adjustment (p6.calculate_final_score 100 100 100)).map
          (fun x => x.1)) := by
  constructor
  · intro hcond
    unfold DecisionEngine.run
    exact runWithSignals_eval 100 100 100 cfg dyn p p6 h hcond
  · intro hcond
    unfold DecisionEngine.run
    exact runWithSignals_eval_cond 100 100 100 cfg dyn p p6 h hcond

/-- C6 witness: the amended theorem applied at the concrete plan with
APC 650 (prefix succeeds, score 82 is APPROVED, so no adjustment). -/
theorem run_signals_hardcoded_100_witness :
    DecisionEngine.run none true { samplePlan with apc_score := 650 } =
      some (({ samplePlan with apc_score := 650 } : FinancePlan).calculate_final_score
        100 100 100) := by
  refine (run_signals_hardcoded_100 none true _ _ runPrefix_sample650).1 ?_
  rw [score_sample650_signals100.2]
  simp +decide

/-- A concrete configuration row used by the C7 scenario: tier-A minimum
raised to 700. -/
def cfg700 : CreditConfig :=
  { tier_a_min_score := 700, tier_b_min_score := 550, tier_c_min_score := 500 }

/-- C7: the engine reads custom tier thresholds from the configuration
store and passes them to `determine_risk_tier`
(decision_engine.py:88-95), but `FinancePlan.determine_risk_tier`
(finance/models.py:344) accepts no parameters, so the call raises
`TypeError`, the bare `except:` swallows it, and the tier is always
computed from the fixed 600/550/500 defaults: with overrides
(A≥700, B≥550, C≥500) and APC 650 the code still answers `TIER_A`, while
the spec's override-accepting classifier answers `TIER_B`. -/
theorem run_ignores_threshold_overrides :
    (DecisionEngine.run (some cfg700) true { samplePlan with apc_score := 650 }).map
        (fun q => q.risk_tier) = some RiskTier.TIER_A ∧
    riskTierWithOverrides (some cfg700) 650 = RiskTier.TIER_B ∧
    RiskTier.TIER_A ≠ RiskTier.TIER_B := by
  refine ⟨?_, by norm_num [riskTierWithOverrides, cfg700], by decide⟩
  unfold DecisionEngine.run
  rw [runWithSignals_eval 100 100 100 _ true _ _ runPrefix_sample650
    (by rw [score_sample650_signals100.2]; simp +decide)]
  rfl

lemma apcNorm_nonneg (apc : ℤ) : 0 ≤ apcNorm apc := by
  unfold apcNorm
  exact le_min (by norm_num) (le_max_left _ _)

lemma apcNorm_le_100 (apc : ℤ) : apcNorm apc ≤ 100 :=
  min_le_left _ _

lemma capacityNormCode_le_100 (maxI : ℚ) (emi? : Option ℚ) :
    capacityNormCode maxI emi? ≤ 100 := by
  unfold capacityNormCode
  cases emi? with
  | none => norm_num
  | some emi =>
      dsimp only
      split_ifs
      · exact min_le_left _ _
      · norm_num

lemma score_zero_signals_le_60 (q : FinancePlan) :
    (∀ s : ℤ, (q.calculate_final_score 0 0 0).final_score = some s → s ≤ 60) ∧
    (q.calculate_final_score 0 0 0).score_status ≠ some ScoreStatus.APPROVED := by
  have h1 : (q.calculate_final_score 0 0 0).final_score =
      some (truncToZero
        (3/10 * apcNorm q.apc_score +
         3/10 * capacityNormCode q.maximum_allowed_installment q.monthly_installment +
         2/10 * 0 + 1/10 * 0 + 1/10 * 0)) := rfl
  have h2 : (q.calculate_final_score 0 0 0).score_status =
      some (scoreStatusOf (truncToZero
        (3/10 * apcNorm q.apc_score +
         3/10 * capacityNormCode q.maximum_allowed_installment q.monthly_installment +
         2/10 * 0 + 1/10 * 0 + 1/10 * 0))) := rfl
  have hW : 3/10 * apcNorm q.apc_score +
      3/10 * capacityNormCode q.maximum_allowed_installment q.monthly_installment +
      2/10 * 0 + 1/10 * 0 + 1/10 * 0 ≤ 60 := by
    have ha := apcNorm_le_100 q.apc_score
    have hc := capacityNormCode_le_100 q.maximum_allowed_installment q.monthly_installment
    linarith
  have htr : truncToZero
      (3/10 * apcNorm q.apc_score +
       3/10 * capacityNormCode q.maximum_allowed_installment q.monthly_installment +
       2/10 * 0 + 1/10 * 0 + 1/10 * 0) ≤ 60 := by
    unfold truncToZero
    split_ifs with h0
    · have hf := Int.floor_le_floor hW
      have h60 : ⌊(60 : ℚ)⌋ = 60 := by norm_num
      omega
    · have hc : ⌈(3/10 * apcNorm q.apc_score +
          3/10 * capacityNormCode q.maximum_allowed_installment q.monthly_installment +
          2/10 * 0 + 1/10 * 0 + 1/10 * 0 : ℚ)⌉ ≤ ⌈(0 : ℚ)⌉ :=
        Int.ceil_le_ceil (le_of_lt (not_le.mp h0))
      have h0' : ⌈(0 : ℚ)⌉ = 0 := by norm_num
      omega
  constructor
  · intro s hs
    rw [h1] at hs
    have := Option.some_inj.mp hs
    omega
  · intro hap
    rw [h2] at hap
    have := Option.some_inj.mp hap
    have h80 := (scoreStatusOf_iff _).1.mp this
    omega

/-- C10: whenever `dynamic_adjustment` actually modifies the plan (its
`adjusted` flag is set), the subsequent re-scoring is
`calculate_final_score()` with its Python defaults — biometric, reference
and geo signals all 0 — so the recomputed final score is at most
60 (= 0.30×100 + 0.30×100) and the adjusted plan can never come out
APPROVED. -/
theorem dynamic_adjustment_rescore_caps (p : FinancePlan) (x : FinancePlan × Bool)
    (h : DecisionEngine.dynamic_adjustment p = some x) (hadj : x.2 = true) :
    (∀ s : ℤ, x.1.final_score = some s → s ≤ 60) ∧
    x.1.score_status ≠ some ScoreStatus.APPROVED := by
  have hrec : ∀ p2 q, DecisionEngine.adjusted_recalculate p2 = some q →
      (∀ s : ℤ, q.final_score = some s → s ≤ 60) ∧
      q.score_status ≠ some ScoreStatus.APPROVED := by
    intro p2 q hq
    unfold DecisionEngine.adjusted_recalculate at hq
    repeat' first
      | split at hq
      | dsimp only at hq
    all_goals first
      | exact Option.noConfusion hq
      | (rw [Option.some_inj] at hq
         subst hq
         exact ⟨fun s hs => (score_zero_signals_le_60 _).1 s hs,
           (score_zero_signals_le_60 _).2⟩)
  unfold DecisionEngine.dynamic_adjustment at h
  repeat' first
    | split at h
    | dsimp only at h
  all_goals first
    | exact Option.noConfusion h
    | (obtain ⟨q, hq, hx⟩ := Option.map_eq_some'.mp h
       subst hx
       exact hrec _ q hq)
    | (rw [Option.some_inj] at h
       subst h
       simp_all)

/-- The plan produced by running `dynamic_adjustment` on `samplePlan`:
down payment bumped 60 → 75 (25%), term reduced 8 → 4, EMI recomputed to
`⌈225/4⌉ = 57`, re-scored with zero signals to 36 (REJECTED). -/
def planAdjW : FinancePlan :=
  { samplePlan with
      actual_down_payment := 75
      down_payment_percentage := 25
      selected_term := 4
      amount_to_finance := 225
      monthly_installment := some 57
      total_amount_payable := 303
      installment_to_income_pct := 57/10
      final_score := some 36
      score_status := some ScoreStatus.REJECTED }

lemma dynamic_adjustment_samplePlan :
    DecisionEngine.dynamic_adjustment samplePlan = some (planAdjW, true) := by
  have hceil : (⌈(225/4 : ℚ)⌉ : ℤ) = 57 := by
    rw [Int.ceil_eq_iff] <;> norm_num
  norm_num +decide [hceil, DecisionEngine.dynamic_adjustment, DecisionEngine.adjusted_recalculate,
    samplePlan, planAdjW, FinancePlan.get_tier_rules, FinancePlan.calculate_emi,
    FinancePlan.decRoundUp, FinancePlan.check_payment_capacity, FinancePlan.validate_conditions,
    FinancePlan.calculate_minimum_down_payment, FinancePlan.calculate_final_score,
    apcNorm, capacityNormCode, truncToZero, scoreStatusOf, List.min?, List.foldl]

/-- C10 witness: `dynamic_adjustment` on the §8 scenario plan does adjust
(flag set), and the theorem bounds its re-scored plan: score 36 ≤ 60,
status not APPROVED. -/
theorem dynamic_adjustment_rescore_caps_witness :
    DecisionEngine.dynamic_adjustment samplePlan = some (planAdjW, true) ∧
    planAdjW.final_score = some 36 ∧ (36 : ℤ) ≤ 60 ∧
    planAdjW.score_status ≠ some ScoreStatus.APPROVED := by
  refine ⟨dynamic_adjustment_samplePlan, rfl, ?_, ?_⟩
  · exact (dynamic_adjustment_rescore_caps samplePlan (planAdjW, true)
      dynamic_adjustment_samplePlan rfl).1 36 rfl
  · exact (dynamic_adjustment_rescore_caps samplePlan (planAdjW, true)
      dynamic_adjustment_samplePlan rfl).2

/-- Gregorian leap year (`calendar.isleap`). -/
def isLeapYear (y : ℤ) : Bool :=
  decide ((y % 4 = 0 ∧ y % 100 ≠ 0) ∨ y % 400 = 0)

/-- Number of days in a Gregorian month. -/
def daysInMonth (y m : ℤ) : ℤ :=
  if m = 2 then (if isLeapYear y then 29 else 28)
  else if m = 4 ∨ m = 6 ∨ m = 9 ∨ m = 11 then 30
  else 31

/-- Day number (proleptic Gregorian rata die, epoch 1970-01-01 = 0) of a
civil date; Lean's `/` and `%` on `ℤ` are floor-convention for the
positive divisors used here. -/
def daysFromCivil (y m d : ℤ) : ℤ :=
  let yAdj := if m ≤ 2 then y - 1 else y
  let era := yAdj / 400
  let yoe := yAdj - era * 400
  let mp := (m + 9) % 12
  let doy := (153 * mp + 2) / 5 + d - 1
  let doe := yoe * 365 + yoe / 4 - yoe / 100 + doy
  era * 146097 + doe - 719468

/-- Civil date `(year, month, day)` of a day number — inverse of
`daysFromCivil`. -/
def civilFromDays (z : ℤ) : ℤ × ℤ × ℤ :=
  let z1 := z + 719468
  let era := z1 / 146097
  let doe := z1 - era * 146097
  let yoe := (doe - doe / 1460 + doe / 36524 - doe / 146096) / 365
  let doy := doe - (365 * yoe + yoe / 4 - yoe / 100)
  let mp := (5 * doy + 2) / 153
  let d := doy - (153 * mp + 2) / 5 + 1
  let m := if mp < 10 then mp + 3 else mp - 9
  let y := yoe + era * 400 + (if m ≤ 2 then 1 else 0)
  (y, m, d)

/-- `dateutil.relativedelta(months=k)` on a day number: add `k` calendar
months, clamping the day of month to the target month's length. -/
def addMonths (z : ℤ) (k : ℕ) : ℤ :=
  match civilFromDays z with
  | (y, m, d) =>
      let t := m - 1 + (k : ℤ)
      let y1 := y + t / 12
      let m1 := t % 12 + 1
      daysFromCivil y1 m1 (min d (daysInMonth y1 m1))

/-- One row of the Django model `finance.models.EMISchedule`
(finance/models.py:565-630); the plan foreign key is kept implicit by
working with the per-plan row list. -/
structure EMISchedule where
  installment_number : ℕ
  due_date : ℤ
  installment_amount : ℚ
  amount_paid : ℚ
  balance_remaining : ℚ
  status : EMIStatus
  paid_date : Option ℤ
  days_overdue : ℤ
deriving DecidableEq, Repr

namespace EMISchedule

/-- `EMISchedule.update_status` (finance/models.py:631-652); `today` is
`timezone.now().date()`. -/
def update_status (today : ℤ) (e : EMISchedule) : EMISchedule :=
  if e.installment_amount ≤ e.amount_paid then
    { e with status := EMIStatus.PAID, balance_remaining := 0 }
  else if 0 < e.amount_paid then
    { e with status := EMIStatus.PARTIALLY_PAID,
             balance_remaining := e.installment_amount - e.amount_paid }
  else if e.due_date < today then
    { e with status := EMIStatus.OVERDUE, days_overdue := today - e.due_date,
             balance_remaining := e.installment_amount }
  else if today = e.due_date then
    { e with status := EMIStatus.DUE, balance_remaining := e.installment_amount }
  else
    { e with status := EMIStatus.UPCOMING, balance_remaining := e.installment_amount }

/-- `EMISchedule.generate_schedule` (finance/models.py:681-700): one row
per installment `1..selected_term`, due dates spaced 15 days.  (The
`monthly_installment` column is non-nullable in the database, so the
`getD` default is never exercised on stored plans.) -/
def generate_schedule (finance_plan : FinancePlan) (first_due_date : ℤ) : List EMISchedule :=
  (List.range' 1 finance_plan.selected_term).map fun i =>
    { installment_number := i
      due_date := first_due_date + 15 * ((i - 1 : ℕ) : ℤ)
      installment_amount := finance_plan.monthly_installment.getD 0
      amount_paid := 0
      balance_remaining := finance_plan.monthly_installment.getD 0
      status := EMIStatus.UPCOMING
      paid_date := none
      days_overdue := 0 }

/-- `EMISchedule.generate_schedule_emi` (finance/models.py:654-679): one
row per installment, due dates spaced by calendar months
(`relativedelta(months=i-1)`). -/
def generate_schedule_emi (finance_plan : FinancePlan) (first_due_date : ℤ) : List EMISchedule :=
  (List.range' 1 finance_plan.selected_term).map fun i =>
    { installment_number := i
      due_date := addMonths first_due_date (i - 1)
      installment_amount := finance_plan.monthly_installment.getD 0
      amount_paid := 0
      balance_remaining := finance_plan.monthly_installment.getD 0
      status := EMIStatus.UPCOMING
      paid_date := none
      days_overdue := 0 }

end EMISchedule

/-- The `post_save` signal `create_emi_schedule` (finance/signals.py:17-38);
the source's `instance` argument is called `plan` (reserved word): only on
plan creation, and only when no installments exist yet for the
plan, bulk-create the schedule — 15-day cadence when
`installment_frequency_days = 15`, calendar-month cadence otherwise; the
first due date is 30 days from today. -/
def create_emi_schedule (created : Bool) (today : ℤ) (plan : FinancePlan)
    (sched : List EMISchedule) : List EMISchedule :=
  if created = true ∧ sched = [] then
    let first_due_date := today + 30
    if plan.installment_frequency_days = 15 then
      sched ++ EMISchedule.generate_schedule plan first_due_date
    else
      sched ++ EMISchedule.generate_schedule_emi plan first_due_date
  else sched

lemma generate_schedule_map_number (plan : FinancePlan) (first_due : ℤ) :
    (EMISchedule.generate_schedule plan first_due).map (fun e => e.installment_number) =
      List.range' 1 plan.selected_term := by
  simp [EMISchedule.generate_schedule, List.map_map, Function.comp_def]

lemma generate_schedule_emi_map_number (plan : FinancePlan) (first_due : ℤ) :
    (EMISchedule.generate_schedule_emi plan first_due).map (fun e => e.installment_number) =
      List.range' 1 plan.selected_term := by
  simp [EMISchedule.generate_schedule_emi, List.map_map, Function.comp_def]

/-- C8: generating the EMI schedule a second time when installments
already exist is a no-op (the signal's guard skips generation unless the
plan was just created AND its schedule is empty), so after the creation
signal — and any later invocation — the plan has exactly `selected_term`
installments uniquely numbered `1..selected_term`, under either cadence. -/
theorem create_emi_schedule_idempotent (plan : FinancePlan) (t1 t2 : ℤ) (c : Bool) :
    create_emi_schedule c t2 plan (create_emi_schedule true t1 plan []) =
      create_emi_schedule true t1 plan [] ∧
    (create_emi_schedule true t1 plan []).map (fun e => e.installment_number) =
      List.range' 1 plan.selected_term ∧
    (create_emi_schedule true t1 plan []).length = plan.selected_term ∧
    ((create_emi_schedule true t1 plan []).map (fun e => e.installment_number)).Nodup := by
  have hmap : (create_emi_schedule true t1 plan []).map (fun e => e.installment_number) =
      List.range' 1 plan.selected_term := by
    unfold create_emi_schedule
    rw [if_pos ⟨rfl, rfl⟩]
    split_ifs with hf
    · simpa using generate_schedule_map_number plan (t1 + 30)
    · simpa using generate_schedule_emi_map_number plan (t1 + 30)
  have hlen : (create_emi_schedule true t1 plan []).length = plan.selected_term := by
    have h := congrArg List.length hmap
    simpa using h
  refine ⟨?_, hmap, hlen, ?_⟩
  · by_cases hempty : create_emi_schedule true t1 plan [] = []
    · have hT : plan.selected_term = 0 := by
        rw [hempty] at hlen
        simpa using hlen.symm
      rw [hempty]
      unfold create_emi_schedule
      split_ifs <;>
        simp [EMISchedule.generate_schedule, EMISchedule.generate_schedule_emi, hT]
    · unfold create_emi_schedule
      rw [if_neg]
      rintro ⟨-, h2⟩
      exact hempty h2
  · rw [hmap]
    exact List.nodup_range' 1 plan.selected_term

/-- Outcome of `FinanceInstallmentPaymentView.post`: the HTTP status of
the response, the plan's installment rows after the request, and whether
a `PaymentRecord` row was created. -/
structure PaymentOutcome where
  response_status : ℕ
  schedule : List EMISchedule
  payment_created : Bool
deriving DecidableEq, Repr

/-- `FinanceInstallmentPaymentView.generate_future_emis`
(finance/views.py:1083-1100): create rows numbered
`start_number..selected_term`, 15 days apart from `start_date`, each for
the plan's `monthly_installment`, status UPCOMING. -/
def generate_future_emis (plan : FinancePlan) (start_date : ℤ) (start_number : ℕ) :
    List EMISchedule :=
  (List.range' start_number (plan.selected_term + 1 - start_number)).map fun i =>
    { installment_number := i
      due_date := start_date + 15 * ((i - start_number : ℕ) : ℤ)
      installment_amount := plan.monthly_installment.getD 0
      amount_paid := 0
      balance_remaining := plan.monthly_installment.getD 0
      status := EMIStatus.UPCOMING
      paid_date := none
      days_overdue := 0 }

/-- `FinanceInstallmentPaymentView.post` (finance/views.py:1018-1080) for
the plan's row list: look the installment up (404 if absent); reject with
400 and no mutation if it is already PAID; otherwise create the payment
record, add the amount, recompute the status, set `paid_date` to today
(unconditionally), and if the payment is late
(`due_date < paid_date`) delete every unpaid row with a higher number and
regenerate rows `emi.installment_number+1 .. selected_term` from 15 days
after the payment date.  Row identity is the installment number, unique
per plan (`unique_together` in finance/models.py:621). -/
def paymentPost (plan : FinancePlan) (sched : List EMISchedule) (emiNumber : ℕ)
    (amount_paid : ℚ) (today : ℤ) : PaymentOutcome :=
  match sched.find? (fun e => decide (e.installment_number = emiNumber)) with
  | none => { response_status := 404, schedule := sched, payment_created := false }
  | some emi =>
      if emi.status = EMIStatus.PAID then
        { response_status := 400, schedule := sched, payment_created := false }
      else
        let emi1 := EMISchedule.update_status today
          { emi with amount_paid := emi.amount_paid + amount_paid }
        let emi2 := { emi1 with paid_date := some today }
        let sched1 := sched.map (fun e =>
          if e.installment_number = emiNumber then emi2 else e)
        if emi2.due_date < today then
          let kept := sched1.filter (fun e =>
            !(decide (emiNumber < e.installment_number) && decide (e.status ≠ EMIStatus.PAID)))
          let regen := generate_future_emis plan (today + 15) (emiNumber + 1)
          { response_status := 200, schedule := kept ++ regen, payment_created := true }
        else
          { response_status := 200, schedule := sched1, payment_created := true }

lemma update_status_fields (today : ℤ) (e : EMISchedule) :
    (EMISchedule.update_status today e).installment_number = e.installment_number ∧
    (EMISchedule.update_status today e).due_date = e.due_date ∧
    (EMISchedule.update_status today e).amount_paid = e.amount_paid ∧
    (EMISchedule.update_status today e).installment_amount = e.installment_amount ∧
    (EMISchedule.update_status today e).paid_date = e.paid_date := by
  unfold EMISchedule.update_status
  split_ifs <;> exact ⟨rfl, rfl, rfl, rfl, rfl⟩

/-- A single unpaid installment used in the payment scenarios below. -/
def instC9 : EMISchedule :=
  { installment_number := 1
    due_date := 100
    installment_amount := 100
    amount_paid := 0
    balance_remaining := 100
    status := EMIStatus.UPCOMING
    paid_date := none
    days_overdue := 0 }

def schedC9 : List EMISchedule := [instC9]

/-- The same installment already PAID. -/
def instC9paid : EMISchedule :=
  { instC9 with amount_paid := 100, balance_remaining := 0,
                status := EMIStatus.PAID, paid_date := some 80 }

def schedC9paid : List EMISchedule := [instC9paid]

/-- C9 counterexample: a partial payment of 50 on a 100-unit installment
leaves it PARTIALLY_PAID, yet the view sets `paid_date` to the payment
date anyway (views.py:1048 runs unconditionally) — the claim says
`paid_date` is set only when the installment becomes PAID. -/
theorem payment_paid_date_counterexample :
    ((paymentPost samplePlan schedC9 1 50 90).schedule.head?).map
        (fun e => (e.status, e.paid_date)) =
      some (EMIStatus.PARTIALLY_PAID, some 90) ∧
    some (90 : ℤ) ≠ (none : Option ℤ) := by
  refine ⟨?_, by decide⟩
  norm_num +decide [paymentPost, schedC9, instC9, EMISchedule.update_status,
    generate_future_emis, List.find?]

/-- C9 amended: a payment on a PAID installment is rejected with HTTP 400,
no payment record and no mutation of the schedule; otherwise a payment
record is created and the installment row becomes
`update_status(today, row with amount_paid += amount)` with `paid_date`
set to the payment date UNCONDITIONALLY (not only when it is now PAID),
and that updated row is in the resulting schedule. -/
theorem apply_payment_amended (plan : FinancePlan) (sched : List EMISchedule) (n : ℕ)
    (amt : ℚ) (today : ℤ) (e : EMISchedule)
    (hfind : sched.find? (fun x => decide (x.installment_number = n)) = some e) :
    (e.status = EMIStatus.PAID →
      paymentPost plan sched n amt today =
        { response_status := 400, schedule := sched, payment_created := false }) ∧
    (e.status ≠ EMIStatus.PAID →
      (paymentPost plan sched n amt today).payment_created = true ∧
      (paymentPost plan sched n amt today).response_status = 200 ∧
      ({ EMISchedule.update_status today { e with amount_paid := e.amount_paid + amt } with
           paid_date := some today } : EMISchedule).amount_paid = e.amount_paid + amt ∧
      { EMISchedule.update_status today { e with amount_paid := e.amount_paid + amt } with
           paid_date := some today } ∈ (paymentPost plan sched n amt today).schedule) := by
  have hfp := List.find?_some hfind
  have hen : e.installment_number = n := by simpa using hfp
  have hmem : e ∈ sched := List.mem_of_find?_eq_some hfind
  have hrnum : ({ EMISchedule.update_status today
      { e with amount_paid := e.amount_paid + amt } with
      paid_date := some today } : EMISchedule).installment_number = n := by
    have h := (update_status_fields today { e with amount_paid := e.amount_paid + amt }).1
    simpa [h] using hen
  constructor
  · intro hp
    unfold paymentPost
    rw [hfind]
    try dsimp only
    rw [if_pos hp]
  · intro hp
    unfold paymentPost
    rw [hfind]
    try dsimp only
    rw [if_neg hp]
    try dsimp only
    split_ifs with hlate
    · refine ⟨rfl, rfl, (update_status_fields today _).2.2.1, ?_⟩
      apply List.mem_append_left
      apply List.mem_filter.mpr
      refine ⟨?_, ?_⟩
      · refine List.mem_map.mpr ⟨e, hmem, ?_⟩
        rw [if_pos hen]
      · have hn2 : (EMISchedule.update_status today
            { e with amount_paid := e.amount_paid + amt }).installment_number = n := by
          have h := (update_status_fields today { e with amount_paid := e.amount_paid + amt }).1
          simpa [h] using hen
        simp [hn2]
    · refine ⟨rfl, rfl, (update_status_fields today _).2.2.1, ?_⟩
      refine List.mem_map.mpr ⟨e, hmem, ?_⟩
      rw [if_pos hen]

/-- C9 witness: the amended theorem applied at a PAID installment (400, no
mutation) and at an unpaid installment partially paid (row updated,
`paid_date` set). -/
theorem apply_payment_amended_witness :
    paymentPost samplePlan schedC9paid 1 10 50 =
      { response_status := 400, schedule := schedC9paid, payment_created := false } ∧
    (paymentPost samplePlan schedC9 1 50 90).payment_created = true ∧
    { EMISchedule.update_status 90 { instC9 with amount_paid := instC9.amount_paid + 50 } with
        paid_date := some 90 } ∈ (paymentPost samplePlan schedC9 1 50 90).schedule := by
  refine ⟨(apply_payment_amended samplePlan schedC9paid 1 10 50 instC9paid rfl).1 rfl,
    ((apply_payment_amended samplePlan schedC9 1 50 90 instC9 rfl).2 (by decide)).1,
    ((apply_payment_amended samplePlan schedC9 1 50 90 instC9 rfl).2 (by decide)).2.2.2⟩

lemma range'_filter_le (N n : ℕ) (h : n ≤ N) :
    (List.range' 1 N).filter (fun j => decide (j ≤ n)) = List.range' 1 n := by
  have hsplit : List.range' 1 N = List.range' 1 n ++ List.range' (1 + n) (N - n) := by
    rw [List.range'_append_1]
    congr 1
    omega
  rw [hsplit, List.filter_append]
  have h1 : (List.range' 1 n).filter (fun j => decide (j ≤ n)) = List.range' 1 n := by
    apply List.filter_eq_self.mpr
    intro a ha
    have hm := List.mem_range'_1.mp ha
    simpa using (by omega : a ≤ n)
  have h2 : (List.range' (1 + n) (N - n)).filter (fun j => decide (j ≤ n)) = [] := by
    apply List.filter_eq_nil_iff.mpr
    intro a ha
    have hm := List.mem_range'_1.mp ha
    simpa using (by omega : ¬a ≤ n)
  rw [h1, h2, List.append_nil]

lemma generate_future_emis_map_number (plan : FinancePlan) (start : ℤ) (N n : ℕ)
    (hterm : plan.selected_term = N) :
    (generate_future_emis plan start (n + 1)).map (fun e => e.installment_number) =
      List.range' (n + 1) (N - n) := by
  simp only [generate_future_emis, List.map_map, Function.comp_def]
  have : (List.range' (n + 1) (plan.selected_term + 1 - (n + 1))).map (fun i => i) =
      List.range' (n + 1) (plan.selected_term + 1 - (n + 1)) := List.map_id _
  rw [this, hterm]
  congr 1
  omega

/-- C4 amended: a late payment on installment `n` of a fully-numbered
schedule `1..N` deletes exactly the unpaid installments with number `> n`
and then creates fresh rows for ALL numbers `n+1..N` — not just the
deleted positions.  When no future installment is PAID (the regenerated
numbers collide with nothing) the claim's description holds: numbering
`1..N` and the total count `N` are preserved, installments below `n` are
untouched, and every regenerated row `j` is UPCOMING for the plan's EMI
amount with due date `today + 15×(j − n)` (15 days after the payment for
the first, then 15-day spacing). -/
theorem late_payment_reschedule_amended (plan : FinancePlan) (sched : List EMISchedule)
    (N n : ℕ) (amt : ℚ) (today : ℤ) (e : EMISchedule)
    (hterm : plan.selected_term = N)
    (hnums : sched.map (fun x => x.installment_number) = List.range' 1 N)
    (hfind : sched.find? (fun x => decide (x.installment_number = n)) = some e)
    (hstat : e.status ≠ EMIStatus.PAID)
    (hlate : e.due_date < today)
    (hnofut : ∀ f ∈ sched, n < f.installment_number → f.status ≠ EMIStatus.PAID) :
    ((paymentPost plan sched n amt today).schedule.map (fun x => x.installment_number) =
      List.range' 1 N) ∧
    ((paymentPost plan sched n amt today).schedule.length = N) ∧
    (∀ f ∈ sched, f.installment_number < n →
      f ∈ (paymentPost plan sched n amt today).schedule) ∧
    (∀ j : ℕ, n < j → j ≤ N →
      ∃ f ∈ (paymentPost plan sched n amt today).schedule,
        f.installment_number = j ∧
        f.due_date = today + 15 * ((j - n : ℕ) : ℤ) ∧
        f.installment_amount = plan.monthly_installment.getD 0 ∧
        f.status = EMIStatus.UPCOMING) := by
  have hen : e.installment_number = n := by simpa using List.find?_some hfind
  have hmem : e ∈ sched := List.mem_of_find?_eq_some hfind
  have hnN : 1 ≤ n ∧ n < 1 + N := by
    have hn : n ∈ List.range' 1 N := by
      rw [← hnums]
      exact List.mem_map.mpr ⟨e, hmem, hen⟩
    exact List.mem_range'_1.mp hn
  have hdue2 : ({ EMISchedule.update_status today
      { e with amount_paid := e.amount_paid + amt } with
      paid_date := some today } : EMISchedule).due_date = e.due_date :=
    (update_status_fields today _).2.1
  have hlate2 : ({ EMISchedule.update_status today
      { e with amount_paid := e.amount_paid + amt } with
      paid_date := some today } : EMISchedule).due_date < today := by
    rw [hdue2]; exact hlate
  have hnum2 : ({ EMISchedule.update_status today
      { e with amount_paid := e.amount_paid + amt } with
      paid_date := some today } : EMISchedule).installment_number = n := by
    have h := (update_status_fields today { e with amount_paid := e.amount_paid + amt }).1
    simpa [h] using hen
  have hpp : paymentPost plan sched n amt today =
      { response_status := 200,
        schedule :=
          (sched.map (fun x => if x.installment_number = n then
              { EMISchedule.update_status today
                  { e with amount_paid := e.amount_paid + amt } with
                paid_date := some today } else x)).filter
            (fun x => !(decide (n < x.installment_number) &&
              decide (x.status ≠ EMIStatus.PAID)))
          ++ generate_future_emis plan (today + 15) (n + 1),
        payment_created := true } := by
    unfold paymentPost
    rw [hfind]
    try dsimp only
    rw [if_neg hstat]
    try dsimp only
    rw [if_pos hlate2]
  rw [hpp]
  dsimp only
  set r : EMISchedule := { EMISchedule.update_status today
      { e with amount_paid := e.amount_paid + amt } with
      paid_date := some today } with hr
  set updf : EMISchedule → EMISchedule :=
    fun x => if x.installment_number = n then r else x with hupdf
  have hupdnum : ∀ x : EMISchedule,
      (updf x).installment_number = x.installment_number := by
    intro x
    by_cases hx : x.installment_number = n
    · rw [hupdf]
      dsimp only
      rw [if_pos hx, hnum2, hx]
    · rw [hupdf]
      dsimp only
      rw [if_neg hx]
  have hmap1 : (sched.map updf).map (fun x => x.installment_number) =
      List.range' 1 N := by
    rw [List.map_map]
    have hfun : ((fun x : EMISchedule => x.installment_number) ∘ updf) =
        (fun x : EMISchedule => x.installment_number) := funext hupdnum
    rw [hfun, hnums]
  have hcongr : (sched.map updf).filter
        (fun x => !(decide (n < x.installment_number) &&
          decide (x.status ≠ EMIStatus.PAID))) =
      (sched.map updf).filter (fun x => decide (x.installment_number ≤ n)) := by
    apply List.filter_congr
    intro x hx
    rcases List.mem_map.mp hx with ⟨y, hy, rfl⟩
    by_cases hc : y.installment_number ≤ n
    · have h1 : ¬n < (updf y).installment_number := by rw [hupdnum]; omega
      have h2 : (updf y).installment_number ≤ n := by rw [hupdnum]; omega
      simp [h1, h2]
    · have hgt : n < y.installment_number := by omega
      have hyn : y.installment_number ≠ n := by omega
      have hxy : updf y = y := by rw [hupdf]; exact if_neg hyn
      rw [hxy]
      have hstaty := hnofut y hy hgt
      simp [hgt, hc, hstaty]
  have hkept : ((sched.map updf).filter
        (fun x => !(decide (n < x.installment_number) &&
          decide (x.status ≠ EMIStatus.PAID)))).map (fun x => x.installment_number) =
      List.range' 1 n := by
    rw [hcongr]
    rw [show (fun x : EMISchedule => decide (x.installment_number ≤ n)) =
        ((fun i => decide (i ≤ n)) ∘ (fun x : EMISchedule => x.installment_number))
      from rfl]
    rw [← List.filter_map]
    rw [hmap1]
    exact range'_filter_le N n (by omega)
  have hregen := generate_future_emis_map_number plan (today + 15) N n hterm
  refine ⟨?_, ?_, ?_, ?_⟩
  · rw [List.map_append, hkept, hregen]
    rw [show n + 1 = 1 + n from Nat.add_comm n 1, List.range'_append_1]
    congr 1
    omega
  · rw [List.length_append]
    have h1 := congrArg List.length hkept
    have h2 := congrArg List.length hregen
    simp only [List.length_map, List.length_range'] at h1 h2
    omega
  · intro f hf hlt
    apply List.mem_append_left
    apply List.mem_filter.mpr
    constructor
    · refine List.mem_map.mpr ⟨f, hf, ?_⟩
      rw [hupdf]
      dsimp only
      rw [if_neg (by omega : f.installment_number ≠ n)]
    · simp [show ¬n < f.installment_number from by omega]
  · intro j hj1 hj2
    refine ⟨{ installment_number := j
              due_date := (today + 15) + 15 * ((j - (n + 1) : ℕ) : ℤ)
              installment_amount := plan.monthly_installment.getD 0
              amount_paid := 0
              balance_remaining := plan.monthly_installment.getD 0
              status := EMIStatus.UPCOMING
              paid_date := none
              days_overdue := 0 }, ?_, rfl, ?_, rfl, rfl⟩
    · apply List.mem_append_right
      unfold generate_future_emis
      refine List.mem_map.mpr ⟨j, ?_, rfl⟩
      apply List.mem_range'_1.mpr
      omega
    · show today + 15 + 15 * ((j - (n + 1) : ℕ) : ℤ) = today + 15 * ((j - n : ℕ) : ℤ)
      omega

def planC4 : FinancePlan := { samplePlan with selected_term := 3 }

/-- A 3-installment schedule in which the future installment #3 is
already PAID. -/
def schedC4 : List EMISchedule :=
  [{ installment_number := 1, due_date := 10, installment_amount := 30,
     amount_paid := 0, balance_remaining := 30, status := EMIStatus.UPCOMING,
     paid_date := none, days_overdue := 0 },
   { installment_number := 2, due_date := 25, installment_amount := 30,
     amount_paid := 0, balance_remaining := 30, status := EMIStatus.UPCOMING,
     paid_date := none, days_overdue := 0 },
   { installment_number := 3, due_date := 40, installment_amount := 30,
     amount_paid := 30, balance_remaining := 0, status := EMIStatus.PAID,
     paid_date := some 35, days_overdue := 0 }]

/-- C4 counterexample: paying installment 1 late on a plan whose
installment 3 is already PAID deletes only #2 but regenerates BOTH #2 and
#3 (views.py:1090 loops over all numbers above the paid one), leaving
four rows numbered 1,3,2,3 — a duplicate number and a total count of 4 ≠
selected_term = 3, contradicting "regenerates the deleted positions ...
total installment count N is preserved". -/
theorem late_payment_reschedule_counterexample :
    (paymentPost planC4 schedC4 1 30 20).schedule.map (fun e => e.installment_number) =
      [1, 3, 2, 3] ∧
    (paymentPost planC4 schedC4 1 30 20).schedule.length = 4 ∧
    planC4.selected_term = 3 ∧
    ¬((4 : ℕ) = 3) ∧
    ¬([1, 3, 2, 3] : List ℕ).Nodup := by
  refine ⟨?_, ?_, rfl, by decide, by decide⟩ <;>
    norm_num +decide [paymentPost, planC4, schedC4, samplePlan, EMISchedule.update_status,
      generate_future_emis, List.find?, List.range']

def planW4 : FinancePlan := { samplePlan with selected_term := 2 }

def instW4a : EMISchedule :=
  { installment_number := 1, due_date := 10, installment_amount := 30,
    amount_paid := 0, balance_remaining := 30, status := EMIStatus.UPCOMING,
    paid_date := none, days_overdue := 0 }

def instW4b : EMISchedule :=
  { installment_number := 2, due_date := 25, installment_amount := 30,
    amount_paid := 0, balance_remaining := 30, status := EMIStatus.UPCOMING,
    paid_date := none, days_overdue := 0 }

def schedW4 : List EMISchedule := [instW4a, instW4b]

/-- C4 witness: the amended theorem applied to a 2-installment schedule
with no PAID future installment, paying #1 ten days late. -/
theorem late_payment_reschedule_amended_witness :
    ((paymentPost planW4 schedW4 1 30 20).schedule.map (fun e => e.installment_number) =
      List.range' 1 2) ∧
    ((paymentPost planW4 schedW4 1 30 20).schedule.length = 2) := by
  have h := late_payment_reschedule_amended planW4 schedW4 2 1 30 20 instW4a
    rfl (by decide) rfl (by decide) (by decide) (by decide)
  exact ⟨h.1, h.2.1⟩
